import Mathlib

/-!
Verification development for the student travel planner pipeline
(src/travelapp.py): the itinerary generator, the Gemini JSON response
handling, the memoized geocoder, the map builder with its per-activity
fallback chain, and the plain-text download rendering.

Python strings are embedded as lists of characters.  External services
(the Gemini client, the Nominatim geocoder, the json module) are
parameters of the embedded functions: a service call is a function from
the request to an optional or exceptional result.
-/

/-- Python strings, embedded as lists of characters. -/
abbrev PyStr := List Char

/-- The backtick character (code point 96). -/
def btick : Char := Char.ofNat 96

/-- ASCII whitespace as recognized by Python str.strip and the re module
class backslash-s: space, tab, newline, carriage return, vertical tab,
form feed. -/
def isPyWs (c : Char) : Bool :=
  c = ' ' || c = '\t' || c = '\n' || c = '\r' || c = Char.ofNat 11 || c = Char.ofNat 12

/-- Drop leading whitespace characters. -/
def dropWs (l : PyStr) : PyStr := l.dropWhile isPyWs

/-- Python str.strip(): remove leading and trailing whitespace. -/
def pyStrip (l : PyStr) : PyStr :=
  (dropWs (dropWs l).reverse).reverse

/-- The opening markdown fence recognized by parse_gemini_json, matched
case-insensitively (re.IGNORECASE). -/
def fenceOpenChars : PyStr := "```json".data

/-- Three backticks. -/
def ticks3 : PyStr := "```".data

/-- Does the text begin with the case-insensitive opening fence? -/
def startsJsonFence (l : PyStr) : Bool :=
  (l.take 7).map Char.toLower = fenceOpenChars

/-- Second alternative of the re.sub pattern in parse_gemini_json: remove
a trailing run of whitespace followed by three backticks at the very
end, when present. -/
def cleanTicksEnd (l1 : PyStr) : PyStr :=
  if l1.reverse.take 3 = ticks3 then (dropWs (l1.reverse.drop 3)).reverse else l1

/-- Embedding of re.sub applied in parse_gemini_json: the pattern removes
a leading fence (three backticks, the letters json, then whitespace) when
present, and a trailing run of whitespace followed by three backticks at
the end, when present. -/
def cleanFences (l : PyStr) : PyStr :=
  cleanTicksEnd (if startsJsonFence l then dropWs (l.drop 7) else l)

/-- Result of parse_gemini_json: the parsed value if any, the diagnostic
messages emitted via st.error, and how many json.loads attempts ran. -/
structure ParseOut (V : Type) where
  value : Option V
  diags : List PyStr
  attempts : Nat
deriving DecidableEq

/-- Text of the st.error diagnostic emitted by parse_gemini_json before
the raw response text is appended. -/
def errMsgText : PyStr := "Failed to parse AI response. Raw output:\n".data

/-- Embedding of parse_gemini_json (src/travelapp.py lines 31-43).  The
json.loads function is external, passed as the loads parameter: it
returns some value on success and none where Python raises
json.JSONDecodeError. -/
def parse_gemini_json {V : Type} (loads : PyStr → Option V) (response_text : PyStr) :
    ParseOut V :=
  match loads response_text with
  | some v => ⟨some v, [], 1⟩
  | none =>
    let cleaned_text := cleanFences (pyStrip response_text)
    match loads cleaned_text with
    | some v => ⟨some v, [], 2⟩
    | none => ⟨none, [errMsgText ++ response_text], 2⟩

/-- Wrap a text in the markdown code fence of claim C4: a leading line of
three backticks and the letters json, then the text, then a closing line
of three backticks. -/
def fenceWrap (s : PyStr) : PyStr :=
  "```json\n".data ++ s ++ "\n```".data

/-- Outcome of running a Python call: a returned value, or an exception
that propagated. -/
inductive PyOutcome (α : Type) where
  | ok : α → PyOutcome α
  | raised : PyStr → PyOutcome α
deriving DecidableEq

/-- Python str.join on a separator. -/
def pyJoin (sep : PyStr) : List PyStr → PyStr
  | [] => []
  | [x] => x
  | x :: y :: xs => x ++ sep ++ pyJoin sep (y :: xs)

/-- Placeholder interests text used when the interests list is empty. -/
def strGeneralExploring : PyStr := "General exploring".data

/-- The separator of the interests join, also the literal comma-space of
the fallback query in create_itinerary_map. -/
def strCommaSpace : PyStr := ", ".data

/-- The prompt f-string of generate_itinerary (src/travelapp.py lines
52-77), rendered: interpolations become appends and the doubled braces of
the f-string become literal braces. -/
def promptText (destination : PyStr) (duration budget : Int) (interests_str : PyStr) : PyStr :=
  "\n    You are a budget-savvy student travel expert. \n    Create a ".data
    ++ (toString duration).data
    ++ "-day travel itinerary for a student visiting ".data
    ++ destination
    ++ ".\n    Their maximum total budget is $".data
    ++ (toString budget).data
    ++ " USD.\n    Their interests are: ".data
    ++ interests_str
    ++ ".\n    \n    You MUST return the output strictly as a valid JSON object matching this exact schema. Do not include any markdown formatting or introductory text.\n    \x7b\n      \"trip_summary\": \"A brief, exciting summary of the trip.\",\n      \"estimated_total_cost\": 150,\n      \"itinerary\": [\n        \x7b\n          \"day\": 1,\n          \"activities\": [\n            \x7b\n              \"time\": \"Morning\",\n              \"place_name\": \"Specific place name\",\n              \"description\": \"Activity description and why it fits the budget.\",\n              \"estimated_cost\": 10,\n              \"address_for_geocoding\": \"Strict, official location name and city ONLY (e.g., \x27Eiffel Tower, Paris\x27). NO descriptive words.\"\n            \x7d\n          ]\n        \x7d\n      ]\n    \x7d\n    ".data

/-- External collaborators of generate_itinerary: the genai.Client
constructor (which can raise) and client.models.generate_content followed
by reading the response text attribute (which can raise). -/
structure GenEnv (C : Type) where
  clientCtor : PyStr → Except PyStr C
  generate_content : C → PyStr → Except PyStr PyStr

/-- Embedding of generate_itinerary (src/travelapp.py lines 45-91).  The
client constructor runs before the try block, so an exception there
propagates as a raised outcome; the generate_content call and the parse
run inside the try block, whose except clause reports the error and
returns None. -/
def generate_itinerary {C V : Type} (env : GenEnv C) (loads : PyStr → Option V)
    (api_key destination : PyStr) (duration budget : Int) (interests : List PyStr) :
    PyOutcome (Option V) :=
  match env.clientCtor api_key with
  | .error e => .raised e
  | .ok client =>
    let interests_str := if interests.isEmpty then strGeneralExploring
      else pyJoin strCommaSpace interests
    let prompt := promptText destination duration budget interests_str
    match env.generate_content client prompt with
    | .error _e => .ok none
    | .ok text => .ok (parse_gemini_json loads text).value

/-- Association lookup keyed by the exact query string, first match wins. -/
def lookupCache {Coord : Type} : List (PyStr × Option Coord) → PyStr → Option (Option Coord)
  | [], _ => none
  | (k, v) :: rest, q => if k = q then some v else lookupCache rest q

/-- One call of the cached geocoder: the returned coordinate (absent on
failure), the cache after the call, and how many external service
invocations the call performed. -/
structure GeoCallResult (Coord : Type) where
  result : Option Coord
  cache : List (PyStr × Option Coord)
  externalCalls : Nat
deriving DecidableEq

/-- Modelled from the spec: the st.cache_data decorator on
geocode_address (src/travelapp.py lines 16-29) is library code not in
this repository; per the spec it is an unbounded memoization cache keyed
by the exact query string, never evicted during the session, and it
stores the returned value (including the absent result).  The body of
geocode_address (Nominatim lookup with a 5 second timeout, returning
None on timeout or unavailability) is the external function g, already
in caught form. -/
def geocode_address {Coord : Type} (g : PyStr → Option Coord)
    (cache : List (PyStr × Option Coord)) (address : PyStr) : GeoCallResult Coord :=
  match lookupCache cache address with
  | some r => ⟨r, cache, 0⟩
  | none => ⟨g address, cache ++ [(address, g address)], 1⟩

/-- An activity dict of the parsed itinerary: every key may be missing. -/
structure Activity where
  time : Option PyStr
  place_name : Option PyStr
  description : Option PyStr
  estimated_cost : Option Int
  address_for_geocoding : Option PyStr
deriving DecidableEq

/-- A day dict of the parsed itinerary: every key may be missing. -/
structure DayData where
  day : Option Int
  activities : Option (List Activity)
deriving DecidableEq

/-- The top-level parsed itinerary dict: every key may be missing. -/
structure ItineraryData where
  trip_summary : Option PyStr
  estimated_total_cost : Option Int
  itinerary : Option (List DayData)
deriving DecidableEq

/-- Default place name taken by create_itinerary_map when the
place_name key is missing. -/
def strUnknownPlace : PyStr := "Unknown Place".data

/-- The per-activity fallback chain of create_itinerary_map
(src/travelapp.py lines 113-123), instrumented with the list of queries
issued to the geocoder, in order.  Python truthiness of the address and
place name is emptiness of the optional string. -/
def resolveTrace {Coord : Type} (g : PyStr → Option Coord) (destination_city : PyStr)
    (activity : Activity) : Option Coord × List PyStr :=
  let place_name := activity.place_name.getD strUnknownPlace
  let s1 : Option Coord × List PyStr :=
    match activity.address_for_geocoding with
    | some address => if address.isEmpty then (none, []) else (g address, [address])
    | none => (none, [])
  let s2 : Option Coord × List PyStr :=
    if s1.1.isNone && !place_name.isEmpty then
      (g (place_name ++ strCommaSpace ++ destination_city),
        s1.2 ++ [place_name ++ strCommaSpace ++ destination_city])
    else s1
  if s2.1.isNone then (g destination_city, s2.2 ++ [destination_city]) else s2

/-- The coordinate resolved by the fallback chain (the trace without the
query log). -/
def resolveCoords {Coord : Type} (g : PyStr → Option Coord) (destination_city : PyStr)
    (activity : Activity) : Option Coord :=
  (resolveTrace g destination_city activity).1

/-- Transcribed from the wording of claim C2, not from the source: query
(1) the address-for-geocoding when present, (2) place name comma city
when the place name is present, (3) the city alone; stop at the first
success. -/
def specResolveTrace {Coord : Type} (g : PyStr → Option Coord) (city : PyStr)
    (activity : Activity) : Option Coord × List PyStr :=
  let s1 : Option Coord × List PyStr :=
    match activity.address_for_geocoding with
    | some address => (g address, [address])
    | none => (none, [])
  let s2 : Option Coord × List PyStr :=
    match activity.place_name with
    | some pn =>
      if s1.1.isNone then (g (pn ++ strCommaSpace ++ city), s1.2 ++ [pn ++ strCommaSpace ++ city])
      else s1
    | none => s1
  if s2.1.isNone then (g city, s2.2 ++ [city]) else s2

/-- Transcribed from the amended wording of claim C2: query (1) the
address-for-geocoding when present and non-empty, (2) the place name
comma city, where a missing place name defaults to Unknown Place, when
that defaulted name is non-empty, (3) the city alone; stop at the first
success. -/
def specResolveTraceAmended {Coord : Type} (g : PyStr → Option Coord) (city : PyStr)
    (activity : Activity) : Option Coord × List PyStr :=
  let pn := activity.place_name.getD strUnknownPlace
  let s1 : Option Coord × List PyStr :=
    match activity.address_for_geocoding with
    | some address => if address.isEmpty then (none, []) else (g address, [address])
    | none => (none, [])
  let s2 : Option Coord × List PyStr :=
    if s1.1.isNone && !pn.isEmpty then
      (g (pn ++ strCommaSpace ++ city), s1.2 ++ [pn ++ strCommaSpace ++ city])
    else s1
  if s2.1.isNone then (g city, s2.2 ++ [city]) else s2

/-- The fixed marker color palette of create_itinerary_map
(src/travelapp.py line 104). -/
def colorsList : List PyStr :=
  List.map String.data
    [ "blue", "green", "red", "purple", "orange", "darkred", "lightred", "beige",
      "darkblue", "darkgreen", "cadetblue", "darkpurple", "pink", "lightblue",
      "lightgreen", "gray", "black"]

/-- colors[(day_num - 1) % len(colors)], with the Python floor modulo. -/
def markerColorFor (day_num : Int) : PyStr :=
  colorsList.getD ((day_num - 1) % (colorsList.length : Int)).toNat []

/-- The tiles_mapping dict lookup with its OpenStreetMap default. -/
def tilesLookup (style_choice : PyStr) : PyStr :=
  if style_choice = "Standard".data then "OpenStreetMap".data
  else if style_choice = "Dark Mode".data then "CartoDB dark_matter".data
  else if style_choice = "Terrain".data then "OpenTopoMap".data
  else "OpenStreetMap".data

/-- Python str() of an optional string: the string itself, or None. -/
def pyShowOptStr (o : Option PyStr) : PyStr :=
  match o with
  | some s => s
  | none => "None".data

/-- Python str() of an optional integer: its decimal text, or None. -/
def pyShowOptInt (o : Option Int) : PyStr :=
  match o with
  | some n => (toString n).data
  | none => "None".data

/-- The popup f-string of the marker (src/travelapp.py line 129): place
name in bold, day number, time of day, and the estimated cost defaulted
to 0. -/
def popupHtml (place_name : PyStr) (day_num : Int) (activity : Activity) : PyStr :=
  "<b>".data ++ place_name ++ "</b><br>Day ".data ++ (toString day_num).data
    ++ " - ".data ++ pyShowOptStr activity.time
    ++ "<br>Cost: $".data ++ (toString (activity.estimated_cost.getD 0)).data

/-- A folium marker: its location, popup, tooltip and color. -/
structure Marker (Coord : Type) where
  location : Coord
  popup : PyStr
  tooltip : PyStr
  color : PyStr
deriving DecidableEq

/-- The markers contributed by one day dict of the itinerary, in activity
order: each activity resolved by the fallback chain contributes one
marker colored by the day number; an unresolved activity contributes
nothing and processing continues. -/
def dayMarkers {Coord : Type} (g : PyStr → Option Coord) (destination_city : PyStr)
    (day_data : DayData) : List (Marker Coord) :=
  let day_num := day_data.day.getD 1
  let marker_color := markerColorFor day_num
  (day_data.activities.getD []).filterMap (fun activity =>
    let place_name := activity.place_name.getD strUnknownPlace
    match resolveCoords g destination_city activity with
    | none => none
    | some c => some ⟨c, popupHtml place_name day_num activity, place_name, marker_color⟩)

/-- The value produced by create_itinerary_map: the selected tile style,
the markers added to the map in order, the coordinates list, whether the
no-locations warning fired, and whether fit_bounds ran. -/
structure MapResult (Coord : Type) where
  tiles : PyStr
  markers : List (Marker Coord)
  coordinates_list : List Coord
  warned : Bool
  fitted : Bool
deriving DecidableEq

/-- Embedding of create_itinerary_map (src/travelapp.py lines 93-142).
The geocoder is the external function g (the memoized geocode_address of
the session, viewed as a pure query function). -/
def create_itinerary_map {Coord : Type} (g : PyStr → Option Coord)
    (itinerary_data : ItineraryData) (destination_city : PyStr) (style_choice : PyStr) :
    MapResult Coord :=
  let selected_tile := tilesLookup style_choice
  let markers :=
    ((itinerary_data.itinerary.getD []).map (fun day_data =>
      dayMarkers g destination_city day_data)).flatten
  let coordinates_list := markers.map (fun m => m.location)
  ⟨selected_tile, markers, coordinates_list, coordinates_list.isEmpty,
    !coordinates_list.isEmpty⟩

/-- Total number of activities across all days of the itinerary dict. -/
def totalActivities (itinerary_data : ItineraryData) : Nat :=
  ((itinerary_data.itinerary.getD []).map (fun d => (d.activities.getD []).length)).sum

/-- Python str.upper restricted to the ASCII mapping. -/
def pyUpper (l : PyStr) : PyStr := l.map Char.toUpper

/-- The three lines appended per activity by generate_download_text
(src/travelapp.py lines 156-158): the bracketed time, place and cost
line, the details line, the address line, then a blank line.  Missing
values render as the Python text None. -/
def activityBlock (act : Activity) : PyStr :=
  "[".data ++ pyShowOptStr act.time ++ "] ".data ++ pyShowOptStr act.place_name
    ++ " - Est. Cost: $".data ++ pyShowOptInt act.estimated_cost ++ "\n".data
    ++ "Details: ".data ++ pyShowOptStr act.description ++ "\n".data
    ++ "Address: ".data ++ pyShowOptStr act.address_for_geocoding ++ "\n\n".data

/-- The banner and activity lines appended per day by
generate_download_text (src/travelapp.py lines 152-158). -/
def dayText (day : DayData) : PyStr :=
  "DAY ".data ++ pyShowOptInt day.day ++ "\n".data
    ++ List.replicate 20 '-' ++ "\n".data
    ++ ((day.activities.getD []).map activityBlock).flatten

/-- Embedding of generate_download_text (src/travelapp.py lines
144-159). -/
def generate_download_text (itinerary_data : ItineraryData) (destination : PyStr)
    (duration budget : Int) : PyStr :=
  "üéí TRAVEL ITINERARY: ".data ++ pyUpper destination ++ " (".data
    ++ (toString duration).data ++ " DAYS)\n".data
    ++ List.replicate 50 '=' ++ "\n".data
    ++ "Budget: $".data ++ (toString budget).data ++ " | Estimated Cost: $".data
    ++ pyShowOptInt itinerary_data.estimated_total_cost ++ "\n\n".data
    ++ "TRIP SUMMARY:\n".data ++ pyShowOptStr itinerary_data.trip_summary ++ "\n\n".data
    ++ List.replicate 50 '=' ++ "\n\n".data
    ++ ((itinerary_data.itinerary.getD []).map dayText).flatten

/-- The rendered blocks of the activities of one day, in activity
iteration order. -/
def dayBlocks (day : DayData) : List PyStr :=
  (day.activities.getD []).map activityBlock

/-- All rendered activity blocks of the itinerary, in day and activity
iteration order. -/
def allActivityBlocks (itinerary_data : ItineraryData) : List PyStr :=
  ((itinerary_data.itinerary.getD []).map dayBlocks).flatten

/-- The pattern list occurs in the text sequentially: the first pattern
occurs somewhere, the second strictly after the end of that occurrence,
and so on in order. -/
def containsInOrder : List PyStr → PyStr → Prop
  | [], _ => True
  | p :: ps, s => ∃ u v, s = u ++ (p ++ v) ∧ containsInOrder ps v

/-- Boolean test that the first list is an initial segment of the
second. -/
def hasPref : PyStr → PyStr → Bool
  | [], _ => true
  | _ :: _, [] => false
  | a :: as, b :: bs => a = b && hasPref as bs

/-- Boolean substring test: does the pattern occur contiguously inside
the text? -/
def containsSub (pat : PyStr) : PyStr → Bool
  | [] => hasPref pat []
  | c :: rest => hasPref pat (c :: rest) || containsSub pat rest

/-! Concrete data used by witnesses and counterexamples. -/

/-- A message text used as a concrete raised exception. -/
def strBoom : PyStr := "boom".data

/-- A concrete API key text. -/
def strKey : PyStr := "k".data

/-- Environment whose client constructor raises, for claim C1. -/
def envC1bad : GenEnv Unit :=
  ⟨fun _ => Except.error strBoom, fun _ _ => Except.ok []⟩

/-- Environment whose client constructor and AI call both succeed. -/
def envC1ok : GenEnv Unit :=
  ⟨fun _ => Except.ok (), fun _ _ => Except.ok []⟩

/-- A json.loads stand-in that accepts nothing. -/
def loadsNone : PyStr → Option Unit := fun _ => none

/-- The destination city of the C2 scenario. -/
def strRome : PyStr := "Rome".data

/-- Geocoder of the C2 scenario: the provided address is unresolvable,
the defaulted place-name query and the bare city query both resolve. -/
def gC2 : PyStr → Option Int := fun q =>
  if q = "???".data then none
  else if q = "Unknown Place, Rome".data then some 10
  else if q = "Rome".data then some 20
  else none

/-- Activity of the C2 counterexample: an unresolvable address and no
place_name key at all. -/
def actC2 : Activity :=
  { time := none, place_name := none, description := none,
    estimated_cost := none, address_for_geocoding := some ( "???".data) }

/-- A json.loads stand-in for the C4 witness: accepts exactly the text
123 up to surrounding whitespace. -/
def loadsW4 : PyStr → Option Nat := fun t =>
  if pyStrip t = "123".data then some 1 else none

/-- The valid JSON text of the C4 witness. -/
def str123 : PyStr := "123".data

/-- The invalid text of the C5 witness. -/
def strNotJson : PyStr := "not json at all".data

/-- A json.loads stand-in over Nat values that accepts nothing. -/
def loadsNoneNat : PyStr → Option Nat := fun _ => none

/-- A geocoder that resolves every query to the same coordinate. -/
def gAll : PyStr → Option Int := fun _ => some 0

/-- A geocoder that resolves only the bare city query Rome. -/
def gCityOnly : PyStr → Option Int := fun q =>
  if q = "Rome".data then some 5 else none

/-- A plain activity with every key present. -/
def actPlain : Activity :=
  { time := some ( "Morning".data), place_name := some ( "Louvre".data),
    description := some ( "Art".data), estimated_cost := some 12,
    address_for_geocoding := some ( "Louvre, Paris".data) }

/-- An activity with no estimated_cost key, for claim C8. -/
def actNoCost : Activity :=
  { time := some ( "Morning".data), place_name := some ( "Louvre".data),
    description := some ( "Art".data), estimated_cost := none,
    address_for_geocoding := some ( "Louvre, Paris".data) }

/-- A day dict numbered 2 holding one plain activity. -/
def ddC6 : DayData := { day := some 2, activities := some [actPlain] }

/-- The single marker produced from ddC6 under gAll. -/
def mC6 : Marker Int :=
  (dayMarkers gAll strRome ddC6).getD 0 ⟨0, [], [], []⟩

/-- A two-day itinerary dict with three activities in total. -/
def dataC7 : ItineraryData :=
  { trip_summary := some ( "Fun".data), estimated_total_cost := some 150,
    itinerary := some
      [ { day := some 1, activities := some [actPlain, actNoCost] },
        { day := some 2, activities := some [actPlain] } ] }

/-- A one-day, one-activity itinerary dict whose activity has no
estimated_cost key, for claim C8. -/
def dataC8 : ItineraryData :=
  { trip_summary := some ( "Fun".data), estimated_total_cost := some 150,
    itinerary := some [ { day := some 1, activities := some [actNoCost] } ] }

/-- The day dict of dataC8. -/
def dayC8 : DayData := { day := some 1, activities := some [actNoCost] }

/-- A day dict with no day key, for claim C10. -/
def ddNoDay : DayData := { day := none, activities := some [actPlain] }

/-- The single marker produced from ddNoDay under gAll. -/
def mC10 : Marker Int :=
  (dayMarkers gAll strRome ddNoDay).getD 0 ⟨0, [], [], []⟩

/-- The destination text of the C8 scenario. -/
def strParis : PyStr := "Paris".data

/-- The default map style choice. -/
def strStandard : PyStr := "Standard".data

/-- The activity line that claim C8 predicts for actNoCost, with the
missing cost rendered as the default 0. -/
def claimedCostLine : PyStr := "Est. Cost: $0".data

/-- The activity line the code actually renders for actNoCost. -/
def actualCostLine : PyStr := "Est. Cost: $None".data

/-! Helper lemmas about whitespace stripping. -/

theorem dropWs_cons (a : Char) (t : PyStr) :
    dropWs (a :: t) = if isPyWs a then dropWs t else a :: t := by
  simp [dropWs, List.dropWhile_cons]

theorem dropWs_nil : dropWs ([] : PyStr) = [] := rfl

theorem dropWs_append_ne (l₁ l₂ : PyStr) (h : dropWs l₁ ≠ []) :
    dropWs (l₁ ++ l₂) = dropWs l₁ ++ l₂ := by
  induction l₁ with
  | nil => exact absurd rfl h
  | cons a t ih =>
    by_cases ha : isPyWs a
    · rw [dropWs_cons, if_pos ha] at h
      rw [List.cons_append, dropWs_cons, if_pos ha, dropWs_cons, if_pos ha]
      exact ih h
    · rw [List.cons_append, dropWs_cons, if_neg ha, dropWs_cons, if_neg ha,
        List.cons_append]

theorem dropWs_append_eq (l₁ l₂ : PyStr) (h : dropWs l₁ = []) :
    dropWs (l₁ ++ l₂) = dropWs l₂ := by
  induction l₁ with
  | nil => rfl
  | cons a t ih =>
    by_cases ha : isPyWs a
    · rw [dropWs_cons, if_pos ha] at h
      rw [List.cons_append, dropWs_cons, if_pos ha]
      exact ih h
    · rw [dropWs_cons, if_neg ha] at h
      exact absurd h (by simp)

theorem pyStrip_cons_of_nonws (c : Char) (r : PyStr) (h : isPyWs c = false) :
    ∃ z, pyStrip (c :: r) = c :: z := by
  have h' : ¬ isPyWs c := by simp [h]
  unfold pyStrip
  rw [dropWs_cons, if_neg h', List.reverse_cons]
  rcases hcase : dropWs r.reverse with _ | ⟨a, t⟩
  · rw [dropWs_append_eq _ _ hcase, dropWs_cons, if_neg h']
    exact ⟨[], by simp⟩
  · rw [dropWs_append_ne _ _ (by rw [hcase]; simp), hcase, List.reverse_append]
    exact ⟨t.reverse ++ [a], by simp⟩

theorem pyStrip_fenceWrap (s : PyStr) : pyStrip (fenceWrap s) = fenceWrap s := by
  have h1 : dropWs (fenceWrap s) = fenceWrap s := by
    unfold fenceWrap
    rw [List.append_assoc, dropWs_append_ne _ _ (by decide)]
    rw [show dropWs ( "```json\n".data) = "```json\n".data from by decide]
  have h2 : dropWs (fenceWrap s).reverse = (fenceWrap s).reverse := by
    unfold fenceWrap
    rw [List.reverse_append, List.reverse_append]
    rw [dropWs_append_ne _ _ (by decide)]
    rw [show dropWs (( "\n```".data : PyStr).reverse) = ( "\n```".data : PyStr).reverse
      from by decide]
  unfold pyStrip
  rw [h1, h2, List.reverse_reverse]

theorem cleanFences_fenceWrap (s : PyStr) : cleanFences (fenceWrap s) = pyStrip s := by
  have hstart : startsJsonFence (fenceWrap s) = true := by
    unfold startsJsonFence fenceWrap
    rw [List.append_assoc, List.take_append_eq_append_take]
    rw [show List.take 7 ( "```json\n".data) = "```json".data from by decide]
    rw [show (7 - ( "```json\n".data : PyStr).length) = 0 from by decide]
    rw [List.take_zero, List.append_nil]
    decide
  have hdrop : (fenceWrap s).drop 7 = '\n' :: (s ++ "\n```".data) := by
    unfold fenceWrap
    rw [List.append_assoc, List.drop_append_eq_append_drop]
    rw [show List.drop 7 ( "```json\n".data) = ['\n'] from by decide]
    rw [show (7 - ( "```json\n".data : PyStr).length) = 0 from by decide]
    rw [List.drop_zero, List.singleton_append]
  have hred : cleanFences (fenceWrap s)
      = cleanTicksEnd (dropWs ((fenceWrap s).drop 7)) := by
    unfold cleanFences
    rw [hstart, if_pos rfl]
  rw [hred, hdrop, dropWs_cons, if_pos (by decide)]
  rcases hcase : dropWs s with _ | ⟨c, t⟩
  · rw [dropWs_append_eq _ _ hcase]
    rw [show cleanTicksEnd (dropWs ( "\n```".data)) = ([] : PyStr) from by decide]
    unfold pyStrip
    rw [hcase]
    decide
  · have hne : dropWs s ≠ [] := by rw [hcase]; simp
    rw [dropWs_append_ne _ _ hne, hcase]
    unfold cleanTicksEnd
    rw [List.reverse_append, List.take_append_eq_append_take]
    rw [show List.take 3 (( "\n```".data : PyStr).reverse) = ticks3 from by decide]
    rw [show (3 - (( "\n```".data : PyStr).reverse).length) = 0 from by decide]
    rw [List.take_zero, List.append_nil, if_pos rfl]
    rw [List.drop_append_eq_append_drop]
    rw [show List.drop 3 (( "\n```".data : PyStr).reverse) = ['\n'] from by decide]
    rw [show (3 - (( "\n```".data : PyStr).reverse).length) = 0 from by decide]
    rw [List.drop_zero, List.singleton_append, dropWs_cons, if_pos (by decide)]
    unfold pyStrip
    rw [hcase]

/-- Claim C4: for every string s that is valid JSON, parsing s with
parse_gemini_json yields the same parsed value and the same diagnostics
as parsing s wrapped in a markdown code fence (a leading line of three
backticks and the letters json, a trailing line of three backticks).
The hypotheses axiomatize the external json.loads: it rejects any text
whose first character is a backtick, and stripping surrounding
whitespace preserves a successful parse. -/
theorem fence_strip_same_result {V : Type} (loads : PyStr → Option V) (s : PyStr) (v : V)
    (h1 : loads s = some v)
    (h2 : ∀ t : PyStr, t.head? = some btick → loads t = none)
    (h3 : ∀ (t : PyStr) (w : V), loads t = some w → loads (pyStrip t) = some w) :
    (parse_gemini_json loads (fenceWrap s)).value = (parse_gemini_json loads s).value ∧
    (parse_gemini_json loads (fenceWrap s)).diags = (parse_gemini_json loads s).diags := by
  have hh : ( "```json\n".data : PyStr) = btick :: "``json\n".data := by decide
  have hfence : loads (fenceWrap s) = none := by
    apply h2
    unfold fenceWrap
    rw [hh, List.cons_append, List.cons_append]
    rfl
  have hclean : cleanFences (pyStrip (fenceWrap s)) = pyStrip s := by
    rw [pyStrip_fenceWrap, cleanFences_fenceWrap]
  have h4 := h3 s v h1
  simp only [parse_gemini_json, hfence, h1, hclean, h4]
  simp

/-- Witness for claim C4 at a concrete input. -/
theorem fence_strip_same_result_witness :
    (parse_gemini_json loadsW4 (fenceWrap str123)).value
        = (parse_gemini_json loadsW4 str123).value ∧
    (parse_gemini_json loadsW4 (fenceWrap str123)).diags
        = (parse_gemini_json loadsW4 str123).diags := by
  refine fence_strip_same_result loadsW4 str123 1 (by decide) ?_ ?_
  · intro t ht
    rcases t with _ | ⟨c, r⟩
    · simp at ht
    · have hc : c = btick := by simpa using ht
      subst hc
      obtain ⟨z, hz⟩ := pyStrip_cons_of_nonws btick r (by decide)
      have hne : (btick :: z : PyStr) ≠ "123".data := by
        intro heq
        have h123 : ( "123".data : PyStr) = '1' :: "23".data := by decide
        rw [h123] at heq
        injection heq with hhead _
        exact absurd hhead (by decide)
      unfold loadsW4
      rw [hz, if_neg hne]
  · intro t w hw
    unfold loadsW4 at hw ⊢
    by_cases hc : pyStrip t = "123".data
    · rw [if_pos hc] at hw
      rw [hc, if_pos (by decide)]
      exact hw
    · rw [if_neg hc] at hw
      exact absurd hw (by simp)

/-- Claim C5: on input text that json.loads rejects both directly and
after fence stripping, parse_gemini_json returns the absent value, emits
exactly one diagnostic, consisting of the fixed message followed by the
raw text, and makes exactly two parse attempts: no third attempt and no
partial extraction. -/
theorem parse_double_failure {V : Type} (loads : PyStr → Option V) (s : PyStr)
    (h1 : loads s = none) (h2 : loads (cleanFences (pyStrip s)) = none) :
    parse_gemini_json loads s = ⟨none, [errMsgText ++ s], 2⟩ := by
  simp only [parse_gemini_json, h1, h2]

/-- Witness for claim C5 at a concrete input. -/
theorem parse_double_failure_witness :
    parse_gemini_json loadsNoneNat strNotJson = ⟨none, [errMsgText ++ strNotJson], 2⟩ :=
  parse_double_failure loadsNoneNat strNotJson rfl rfl

theorem lookup_append_none {Coord : Type} (l₁ l₂ : List (PyStr × Option Coord)) (q : PyStr)
    (h : lookupCache l₁ q = none) : lookupCache (l₁ ++ l₂) q = lookupCache l₂ q := by
  induction l₁ with
  | nil => rfl
  | cons kv rest ih =>
    obtain ⟨k, v⟩ := kv
    by_cases hk : k = q
    · simp [lookupCache, hk] at h
    · simp only [List.cons_append, lookupCache, if_neg hk] at h ⊢
      exact ih h

/-- Claim C3: two consecutive calls of the memoized geocoder with the
identical query string perform at most one external service invocation
in total, and the second call returns the same result as the first; the
cache is keyed by the exact string and never evicted. -/
theorem geocode_cache_hit {Coord : Type} (g : PyStr → Option Coord)
    (cache : List (PyStr × Option Coord)) (q : PyStr) :
    (geocode_address g (geocode_address g cache q).cache q).result
        = (geocode_address g cache q).result ∧
    (geocode_address g cache q).externalCalls
        + (geocode_address g (geocode_address g cache q).cache q).externalCalls ≤ 1 := by
  rcases hl : lookupCache cache q with _ | r
  · have hl2 : lookupCache (cache ++ [(q, g q)]) q = some (g q) := by
      rw [lookup_append_none _ _ _ hl]
      simp [lookupCache]
    simp [geocode_address, hl, hl2]
  · simp [geocode_address, hl]

/-- Counterexample to claim C1 as stated: when the genai.Client
constructor raises, the exception propagates out of generate_itinerary
instead of yielding a parsed-or-absent return, because the constructor
runs before the try block. -/
theorem generate_raises_on_client_error :
    generate_itinerary envC1bad loadsNone strKey strRome 3 300 []
      = PyOutcome.raised strBoom := rfl

/-- Claim C1 amended: prompt construction cannot raise, and once the
client constructor has returned normally, generate_itinerary never lets
an exception from the AI call or from parsing propagate: every such
outcome yields a normal return of either a parsed value or the absent
value.  An exception from the client constructor itself, which runs
before the try block, still propagates. -/
theorem generate_no_raise_after_client {C V : Type} (env : GenEnv C)
    (loads : PyStr → Option V) (api_key destination : PyStr) (duration budget : Int)
    (interests : List PyStr) (client : C)
    (h : env.clientCtor api_key = Except.ok client) :
    ∃ r : Option V,
      generate_itinerary env loads api_key destination duration budget interests
        = PyOutcome.ok r := by
  simp only [generate_itinerary, h]
  cases hgc : env.generate_content client (promptText destination duration budget
      (if interests.isEmpty then strGeneralExploring else pyJoin strCommaSpace interests)) with
  | error e => exact ⟨none, rfl⟩
  | ok text => exact ⟨(parse_gemini_json loads text).value, rfl⟩

/-- Witness for the amended claim C1 at a concrete input. -/
theorem generate_no_raise_after_client_witness :
    ∃ r : Option Unit,
      generate_itinerary envC1ok loadsNone strKey strRome 3 300 [] = PyOutcome.ok r :=
  generate_no_raise_after_client envC1ok loadsNone strKey strRome 3 300 [] () rfl

/-- Counterexample to claim C2 as stated: for an activity whose address
does not resolve and which has no place_name key, the code still issues
the second query with the defaulted place name Unknown Place, whereas
the claim as worded skips step two when place_name is absent; the issued
query lists and the resolved coordinates differ. -/
theorem resolve_fallback_claim_false :
    resolveTrace gC2 strRome actC2 ≠ specResolveTrace gC2 strRome actC2 := by decide

/-- Claim C2 amended: the fallback chain queries, in order, (1) the
address-for-geocoding when present and non-empty, (2) the place name
comma destination city, where a missing place name defaults to Unknown
Place, whenever that defaulted name is non-empty, (3) the destination
city alone; it stops at the first query that returns a coordinate: every
issued query before the last one failed, and the result is exactly the
geocoder answer on the last issued query. -/
theorem resolve_fallback_order {Coord : Type} (g : PyStr → Option Coord) (city : PyStr)
    (act : Activity) :
    resolveTrace g city act = specResolveTraceAmended g city act ∧
    (resolveTrace g city act).2 ≠ [] ∧
    (∀ q ∈ (resolveTrace g city act).2.dropLast, g q = none) ∧
    (∀ q, (resolveTrace g city act).2.getLast? = some q
        → g q = (resolveTrace g city act).1) := by
  refine ⟨rfl, ?_⟩
  rcases ha : act.address_for_geocoding with _ | a
  · by_cases hpn : (act.place_name.getD strUnknownPlace).isEmpty
    · simp [resolveTrace, ha, hpn, List.dropLast, List.getLast?_singleton]
    · rw [Bool.not_eq_true] at hpn
      rcases hq2 : g (act.place_name.getD strUnknownPlace ++ (strCommaSpace ++ city))
          with _ | c
      · simp [resolveTrace, ha, hpn, hq2, List.dropLast, List.getLast?_cons_cons,
          List.getLast?_singleton, List.forall_mem_cons]
      · simp [resolveTrace, ha, hpn, hq2, List.dropLast, List.getLast?_singleton]
  · by_cases hae : a.isEmpty
    · by_cases hpn : (act.place_name.getD strUnknownPlace).isEmpty
      · simp [resolveTrace, ha, hae, hpn, List.dropLast, List.getLast?_singleton]
      · rw [Bool.not_eq_true] at hpn
        rcases hq2 : g (act.place_name.getD strUnknownPlace ++ (strCommaSpace ++ city))
            with _ | c
        · simp [resolveTrace, ha, hae, hpn, hq2, List.dropLast, List.getLast?_cons_cons,
            List.getLast?_singleton, List.forall_mem_cons]
        · simp [resolveTrace, ha, hae, hpn, hq2, List.dropLast, List.getLast?_singleton]
    · rw [Bool.not_eq_true] at hae
      rcases hga : g a with _ | c
      · by_cases hpn : (act.place_name.getD strUnknownPlace).isEmpty
        · simp [resolveTrace, ha, hae, hga, hpn, List.dropLast, List.getLast?_cons_cons,
            List.getLast?_singleton, List.forall_mem_cons]
        · rw [Bool.not_eq_true] at hpn
          rcases hq2 : g (act.place_name.getD strUnknownPlace ++ (strCommaSpace ++ city))
              with _ | c
          · simp [resolveTrace, ha, hae, hga, hpn, hq2, List.dropLast,
              List.getLast?_cons_cons, List.getLast?_singleton, List.forall_mem_cons]
          · simp [resolveTrace, ha, hae, hga, hpn, hq2, List.dropLast,
              List.getLast?_cons_cons, List.getLast?_singleton, List.forall_mem_cons]
      · simp [resolveTrace, ha, hae, hga, List.dropLast, List.getLast?_singleton]

/-- Witness for the amended claim C2 at a concrete input: the code trace
and the amended specification trace agree. -/
theorem resolve_fallback_order_witness :
    resolveTrace gC2 strRome actC2 = specResolveTraceAmended gC2 strRome actC2 :=
  (resolve_fallback_order gC2 strRome actC2).1

theorem opt_last_step {Coord : Type} (g : PyStr → Option Coord) (city : PyStr) (c : Coord)
    (h : g city = some c) (s2 : Option Coord × List PyStr) :
    ((if s2.1.isNone then (g city, s2.2 ++ [city]) else s2).1).isSome := by
  rcases hs : s2.1 with _ | v
  · simp [hs, h]
  · simp [hs]

theorem resolveCoords_city_success {Coord : Type} (g : PyStr → Option Coord) (city : PyStr)
    (act : Activity) (c : Coord) (h : g city = some c) :
    (resolveCoords g city act).isSome := by
  simp only [resolveCoords, resolveTrace]
  exact opt_last_step g city c h _

theorem length_filterMap_eq_of_isSome {α β : Type} (f : α → Option β) (l : List α)
    (h : ∀ a ∈ l, (f a).isSome) : (l.filterMap f).length = l.length := by
  induction l with
  | nil => rfl
  | cons a t ih =>
    rcases hf : f a with _ | b
    · exact absurd (h a (by simp)) (by simp [hf])
    · simp only [List.filterMap_cons, hf, List.length_cons]
      rw [ih (fun x hx => h x (by simp [hx]))]

theorem dayMarkers_length_le {Coord : Type} (g : PyStr → Option Coord) (city : PyStr)
    (dd : DayData) : (dayMarkers g city dd).length ≤ (dd.activities.getD []).length := by
  unfold dayMarkers
  exact List.length_filterMap_le _ _

theorem dayMarkers_length_eq {Coord : Type} (g : PyStr → Option Coord) (city : PyStr)
    (dd : DayData)
    (h : ∀ act ∈ dd.activities.getD [], (resolveCoords g city act).isSome) :
    (dayMarkers g city dd).length = (dd.activities.getD []).length := by
  unfold dayMarkers
  apply length_filterMap_eq_of_isSome
  intro a ha
  rcases hr : resolveCoords g city a with _ | c
  · exact absurd (h a ha) (by simp [hr])
  · simp [hr]

theorem create_map_markers_le_total {Coord : Type} (g : PyStr → Option Coord)
    (data : ItineraryData) (city style : PyStr) :
    (create_itinerary_map g data city style).markers.length ≤ totalActivities data := by
  simp only [create_itinerary_map, totalActivities]
  rw [List.length_flatten, List.map_map]
  apply List.sum_le_sum
  intro dd _hdd
  exact dayMarkers_length_le g city dd

theorem create_map_markers_eq_total {Coord : Type} (g : PyStr → Option Coord)
    (data : ItineraryData) (city style : PyStr)
    (h : ∀ dd ∈ data.itinerary.getD [], ∀ act ∈ dd.activities.getD [],
      (resolveCoords g city act).isSome) :
    (create_itinerary_map g data city style).markers.length = totalActivities data := by
  simp only [create_itinerary_map, totalActivities]
  rw [List.length_flatten, List.map_map]
  congr 1
  apply List.map_congr_left
  intro dd hdd
  exact dayMarkers_length_eq g city dd (h dd hdd)

theorem marker_color_mem {Coord : Type} (g : PyStr → Option Coord) (city : PyStr)
    (dd : DayData) (m : Marker Coord) (h : m ∈ dayMarkers g city dd) :
    m.color = markerColorFor (dd.day.getD 1) := by
  unfold dayMarkers at h
  obtain ⟨a, _ha, hfa⟩ := List.mem_filterMap.mp h
  rcases hr : resolveCoords g city a with _ | c
  · simp [hr] at hfa
  · simp only [hr] at hfa
    injection hfa with hfa
    rw [← hfa]

/-- Claim C6: the palette has exactly 17 entries, every marker of a day
numbered d is colored colors index (d - 1) mod 17, and in particular
days 1, 2, 3 map to colors index 0, 1, 2 while day 18 wraps back to
colors index 0. -/
theorem marker_day_color :
    colorsList.length = 17 ∧
    (∀ {Coord : Type} (g : PyStr → Option Coord) (city : PyStr) (dd : DayData) (d : Int)
        (m : Marker Coord), dd.day = some d → m ∈ dayMarkers g city dd →
        m.color = colorsList.getD ((d - 1) % 17).toNat []) ∧
    markerColorFor 1 = colorsList.getD 0 [] ∧
    markerColorFor 2 = colorsList.getD 1 [] ∧
    markerColorFor 3 = colorsList.getD 2 [] ∧
    markerColorFor 18 = colorsList.getD 0 [] := by
  refine ⟨by decide, ?_, by decide, by decide, by decide, by decide⟩
  intro Coord g city dd d m hd hm
  have hc := marker_color_mem g city dd m hm
  rw [hd] at hc
  simpa [markerColorFor, show ((colorsList.length : Int)) = 17 from by decide] using hc

/-- Witness for claim C6 at a concrete input: the marker of a day
numbered 2 is colored colors index 1. -/
theorem marker_day_color_witness :
    ddC6.day = some 2 ∧ mC6 ∈ dayMarkers gAll strRome ddC6 ∧
    mC6.color = colorsList.getD (((2 : Int) - 1) % 17).toNat [] :=
  ⟨rfl, by decide, marker_day_color.2.1 gAll strRome ddC6 2 mC6 rfl (by decide)⟩

/-- Claim C7: the number of markers placed by the map builder is at most
the total number of activities, equals it when every activity resolves
through the fallback chain, and an activity whose entire fallback chain
fails contributes no marker while the remaining activities of the day
are still processed unchanged. -/
theorem marker_count_bound {Coord : Type} (g : PyStr → Option Coord)
    (data : ItineraryData) (city style : PyStr) :
    (create_itinerary_map g data city style).markers.length ≤ totalActivities data ∧
    ((∀ dd ∈ data.itinerary.getD [], ∀ act ∈ dd.activities.getD [],
        (resolveCoords g city act).isSome) →
      (create_itinerary_map g data city style).markers.length = totalActivities data) ∧
    (∀ (dnum : Option Int) (pre post : List Activity) (act : Activity),
      resolveCoords g city act = none →
      dayMarkers g city ⟨dnum, some (pre ++ act :: post)⟩
        = dayMarkers g city ⟨dnum, some (pre ++ post)⟩) := by
  refine ⟨create_map_markers_le_total g data city style,
    fun h => create_map_markers_eq_total g data city style h, ?_⟩
  intro dnum pre post act hact
  simp [dayMarkers, List.filterMap_append, List.filterMap_cons, hact]

/-- Witness for claim C7 at a concrete input where every activity
resolves: the marker count equals the activity count. -/
theorem marker_count_bound_witness :
    (create_itinerary_map gAll dataC7 strRome strStandard).markers.length
      = totalActivities dataC7 :=
  (marker_count_bound gAll dataC7 strRome strStandard).2.1 (by decide)

/-- Claim C9: when geocoding the destination city alone succeeds, every
activity receives a marker, because the third fallback step is attempted
whenever the first two fail: the marker count equals the total activity
count. -/
theorem city_fallback_markers {Coord : Type} (g : PyStr → Option Coord)
    (data : ItineraryData) (city style : PyStr) (c : Coord) (h : g city = some c) :
    (create_itinerary_map g data city style).markers.length = totalActivities data :=
  create_map_markers_eq_total g data city style
    (fun _dd _hdd act _hact => resolveCoords_city_success g city act c h)

/-- Witness for claim C9 at a concrete input: the geocoder resolves only
the bare city query, yet every activity gets a marker. -/
theorem city_fallback_markers_witness :
    (create_itinerary_map gCityOnly dataC7 strRome strStandard).markers.length
      = totalActivities dataC7 :=
  city_fallback_markers gCityOnly dataC7 strRome strStandard 5 (by decide)

/-- Claim C10: the map builder is total over missing fields: a missing
itinerary key behaves as an empty day list, a missing activities key as
an empty activity list, and a missing day number as day 1, whose markers
take the first palette color; the embedding is a total function, so no
such omission can raise. -/
theorem map_missing_fields_total {Coord : Type} (g : PyStr → Option Coord) :
    (∀ (ts : Option PyStr) (tc : Option Int) (city style : PyStr),
      create_itinerary_map g ⟨ts, tc, none⟩ city style
        = create_itinerary_map g ⟨ts, tc, some []⟩ city style) ∧
    (∀ (dnum : Option Int) (city : PyStr),
      dayMarkers g city ⟨dnum, none⟩ = dayMarkers g city ⟨dnum, some []⟩) ∧
    (∀ (acts : Option (List Activity)) (city : PyStr),
      dayMarkers g city ⟨none, acts⟩ = dayMarkers g city ⟨some 1, acts⟩) ∧
    (∀ (acts : Option (List Activity)) (city : PyStr) (m : Marker Coord),
      m ∈ dayMarkers g city ⟨none, acts⟩ → m.color = colorsList.getD 0 []) := by
  refine ⟨fun ts tc city style => rfl, fun dnum city => rfl, fun acts city => rfl, ?_⟩
  intro acts city m hm
  have hc := marker_color_mem g city ⟨none, acts⟩ m hm
  rw [hc]
  exact (by decide : markerColorFor ((none : Option Int).getD 1) = colorsList.getD 0 [])

/-- Witness for claim C10 at a concrete input: the marker of a day dict
with no day key is colored colors index 0. -/
theorem map_missing_fields_total_witness :
    mC10 ∈ dayMarkers gAll strRome ddNoDay ∧ mC10.color = colorsList.getD 0 [] :=
  ⟨by decide,
    (map_missing_fields_total gAll).2.2.2 (some [actPlain]) strRome mC10 (by decide)⟩

theorem hasPref_append (p b : PyStr) : hasPref p (p ++ b) = true := by
  induction p with
  | nil => rfl
  | cons c t ih => simp [hasPref, ih]

theorem containsSub_here (p b : PyStr) : containsSub p (p ++ b) = true := by
  rcases p with _ | ⟨c, t⟩
  · cases b <;> simp [containsSub, hasPref]
  · simp [containsSub, hasPref, hasPref_append]

theorem containsSub_cons (p : PyStr) (c : Char) (s : PyStr)
    (h : containsSub p s = true) : containsSub p (c :: s) = true := by
  simp [containsSub, h]

theorem containsSub_append_left (p a s : PyStr) (h : containsSub p s = true) :
    containsSub p (a ++ s) = true := by
  induction a with
  | nil => simpa using h
  | cons c t ih => simpa [List.cons_append] using containsSub_cons p c (t ++ s) ih

theorem containsSub_of_parts (a p b : PyStr) : containsSub p (a ++ (p ++ b)) = true :=
  containsSub_append_left p a _ (containsSub_here p b)

theorem containsSub_of_infix (p s : PyStr) (h : ∃ a b, s = a ++ (p ++ b)) :
    containsSub p s = true := by
  obtain ⟨a, b, rfl⟩ := h
  exact containsSub_of_parts a p b

theorem flatten_mem_split {α β : Type} (f : α → List β) (l : List α) (x : α) (h : x ∈ l) :
    ∃ u v, (l.map f).flatten = u ++ (f x ++ v) := by
  induction l with
  | nil => cases h
  | cons a t ih =>
    rcases List.mem_cons.mp h with rfl | h
    · exact ⟨[], (t.map f).flatten, by simp⟩
    · obtain ⟨u, v, huv⟩ := ih h
      exact ⟨f a ++ u, v, by simp [huv, List.append_assoc]⟩

set_option maxRecDepth 16384 in
/-- Counterexample to claim C8 as stated: for an activity whose
estimated_cost key is missing, the download text renders the cost as the
Python text None, not as the default 0: the text does not contain the
claimed Est. Cost dollar zero fragment, and does contain the Est. Cost
dollar None fragment. -/
theorem download_cost_claim_false :
    containsSub claimedCostLine (generate_download_text dataC8 strParis 2 300) = false ∧
    containsSub actualCostLine (generate_download_text dataC8 strParis 2 300) = true := by
  constructor
  · decide
  · decide

theorem download_block_in_text (data : ItineraryData) (destination : PyStr)
    (duration budget : Int) (day : DayData) (act : Activity)
    (hd : day ∈ data.itinerary.getD []) (ha : act ∈ day.activities.getD []) :
    containsSub (activityBlock act) (generate_download_text data destination duration budget)
      = true := by
  obtain ⟨u, v, huv⟩ := flatten_mem_split dayText (data.itinerary.getD []) day hd
  obtain ⟨u2, v2, huv2⟩ := flatten_mem_split activityBlock (day.activities.getD []) act ha
  apply containsSub_of_infix
  refine ⟨ "üéí TRAVEL ITINERARY: ".data ++ pyUpper destination ++ " (".data
      ++ (toString duration).data ++ " DAYS)\n".data
      ++ List.replicate 50 '=' ++ "\n".data
      ++ "Budget: $".data ++ (toString budget).data ++ " | Estimated Cost: $".data
      ++ pyShowOptInt data.estimated_total_cost ++ "\n\n".data
      ++ "TRIP SUMMARY:\n".data ++ pyShowOptStr data.trip_summary ++ "\n\n".data
      ++ List.replicate 50 '=' ++ "\n\n".data
      ++ u ++ ( "DAY ".data ++ pyShowOptInt day.day ++ "\n".data
      ++ List.replicate 20 '-' ++ "\n".data ++ u2), v2 ++ v, ?_⟩
  unfold generate_download_text
  rw [huv]
  unfold dayText
  rw [huv2]
  simp only [List.append_assoc]

theorem containsInOrder_append_left (ps : List PyStr) (u v : PyStr)
    (h : containsInOrder ps v) : containsInOrder ps (u ++ v) := by
  cases ps with
  | nil => trivial
  | cons p t =>
    obtain ⟨a, b, hab, hrest⟩ := h
    exact ⟨u ++ a, b, by rw [hab, List.append_assoc], hrest⟩

theorem containsInOrder_append (ps1 ps2 : List PyStr) (s1 s2 : PyStr)
    (h1 : containsInOrder ps1 s1) (h2 : containsInOrder ps2 s2) :
    containsInOrder (ps1 ++ ps2) (s1 ++ s2) := by
  induction ps1 generalizing s1 with
  | nil => exact containsInOrder_append_left ps2 s1 s2 h2
  | cons p t ih =>
    obtain ⟨a, b, hab, hrest⟩ := h1
    refine ⟨a, b ++ s2, ?_, ih b hrest⟩
    rw [hab]
    simp [List.append_assoc]

theorem containsInOrder_flatten (ps : List PyStr) : containsInOrder ps ps.flatten := by
  induction ps with
  | nil => trivial
  | cons p t ih => exact ⟨[], t.flatten, by simp, ih⟩

theorem containsInOrder_dayText (day : DayData) :
    containsInOrder (dayBlocks day) (dayText day) := by
  have hsplit : dayText day
      = ( "DAY ".data ++ pyShowOptInt day.day ++ "\n".data
          ++ List.replicate 20 '-' ++ "\n".data) ++ (dayBlocks day).flatten := by
    unfold dayText dayBlocks
    simp only [List.append_assoc]
  rw [hsplit]
  exact containsInOrder_append_left _ _ _ (containsInOrder_flatten _)

theorem containsInOrder_days (l : List DayData) :
    containsInOrder ((l.map dayBlocks).flatten) ((l.map dayText).flatten) := by
  induction l with
  | nil => trivial
  | cons d t ih =>
    simp only [List.map_cons, List.flatten_cons]
    exact containsInOrder_append _ _ _ _ (containsInOrder_dayText d) ih

/-- Claim C8 amended: the download text contains, for each activity of
each day in iteration order, the block consisting of the bracketed time,
the place name, the text Est. Cost dollar cost, then a details line and
an address line followed by a blank line; the blocks occur sequentially
in exactly that order, each strictly after the end of the previous one,
and a missing field, including a missing estimated cost, is rendered as
the Python text None rather than the default 0. -/
theorem download_text_blocks_in_order (data : ItineraryData) (destination : PyStr)
    (duration budget : Int) :
    containsInOrder (allActivityBlocks data)
      (generate_download_text data destination duration budget) ∧
    (∀ day ∈ data.itinerary.getD [], ∀ act ∈ day.activities.getD [],
      containsSub (activityBlock act)
        (generate_download_text data destination duration budget) = true) := by
  constructor
  · have hsplit : generate_download_text data destination duration budget
        = ( "üéí TRAVEL ITINERARY: ".data ++ pyUpper destination ++ " (".data
            ++ (toString duration).data ++ " DAYS)\n".data
            ++ List.replicate 50 '=' ++ "\n".data
            ++ "Budget: $".data ++ (toString budget).data ++ " | Estimated Cost: $".data
            ++ pyShowOptInt data.estimated_total_cost ++ "\n\n".data
            ++ "TRIP SUMMARY:\n".data ++ pyShowOptStr data.trip_summary ++ "\n\n".data
            ++ List.replicate 50 '=' ++ "\n\n".data)
          ++ ((data.itinerary.getD []).map dayText).flatten := by
      unfold generate_download_text
      simp only [List.append_assoc]
    rw [hsplit]
    unfold allActivityBlocks
    exact containsInOrder_append_left _ _ _
      (containsInOrder_days (data.itinerary.getD []))
  · intro day hd act ha
    exact download_block_in_text data destination duration budget day act hd ha

/-- Witness for the amended claim C8 at a concrete input: the blocks of
the one-activity itinerary occur in order in the rendered text, and the
block of the cost-less activity, with None in the cost position, is
contained in it. -/
theorem download_text_blocks_in_order_witness :
    containsInOrder (allActivityBlocks dataC8)
      (generate_download_text dataC8 strParis 2 300) ∧
    dayC8 ∈ dataC8.itinerary.getD [] ∧ actNoCost ∈ dayC8.activities.getD [] ∧
    containsSub (activityBlock actNoCost) (generate_download_text dataC8 strParis 2 300)
      = true :=
  ⟨(download_text_blocks_in_order dataC8 strParis 2 300).1, by decide, by decide,
    (download_text_blocks_in_order dataC8 strParis 2 300).2 dayC8 (by decide)
      actNoCost (by decide)⟩
